import Mathlib

/-!
# Verification of the Vanz-SC-Auto-Order ledger and payment core

Shallow embedding of `src/main.py`: the user/topup/stats stores, the
balance-funded purchase flow (`process_buy_request`), the topup flow
(`process_topup_request`), and the Tripay callback reconciler
(`tripay_callback`).  Python JSON dicts become functions `String → Option α`,
Python ints become `Int`, and the command-parse of a quantity token mirrors
`int(parts[2]) if parts[2].isdigit() else 1`.

Effects that the claims are about but that Python performs implicitly are made
explicit: the gateway call outcome is a boolean parameter (`gatewayOk`), the
random `merchant_ref` is a parameter, and the callback result carries the
response body (`success`), the resulting state, and whether the signature
mismatch warning was printed (`warned`).
-/

namespace VanzSC

/-- One entry of a user's `orders` list (src/main.py lines 440-444). -/
structure OrderRecord where
  code : String
  name : String
  price : Int
deriving DecidableEq, Repr

/-- A user record as stored in users.json (src/main.py lines 181-186). -/
structure User where
  name : String
  saldo : Int
  total_spent : Int
  orders : List OrderRecord
deriving DecidableEq, Repr

/-- A pending/paid topup record as stored in topups.json (lines 395-400). -/
structure Topup where
  phone : String
  name : String
  amount : Int
  status : String
deriving DecidableEq, Repr

/-- The global stats record of stats.json (line 102). -/
structure Stats where
  total_sold : Int
  total_amount : Int
  total_users : Int
deriving DecidableEq, Repr

/-- A product record as read from products.json (only the fields the core
reads: `price` at line 426, `name` at line 427). -/
structure Product where
  name : String
  price : Int
deriving DecidableEq, Repr

/-- A JSON-dict store keyed by string, as the flat files are. -/
abbrev Store (α : Type) := String → Option α

/-- `d[k] = v` on a dict. -/
def setStore {α : Type} (m : Store α) (k : String) (v : α) : Store α :=
  fun k2 => if k2 = k then some v else m k2

/-- The whole persisted state: users.json, topups.json, stats.json and the
read-only products.json. -/
structure St where
  users : Store User
  topups : Store Topup
  products : Store Product
  stats : Stats

/-- `get_or_create_user` (src/main.py lines 178-191): on first contact create
the user with `saldo = 0` and bump `total_users`; otherwise return the stored
record unchanged. -/
def get_or_create_user (st : St) (phone name : String) : St × User :=
  match st.users phone with
  | some u => (st, u)
  | none =>
      let u : User := { name := name, saldo := 0, total_spent := 0, orders := [] }
      ({ st with
          users := setStore st.users phone u,
          stats := { st.stats with total_users := st.stats.total_users + 1 } }, u)

/-- `update_user` (lines 194-197): overwrite the user record. -/
def update_user (st : St) (phone : String) (u : User) : St :=
  { st with users := setStore st.users phone u }

/-- `add_stats_sold` (lines 200-204). -/
def add_stats_sold (st : St) (amount : Int) : St :=
  { st with stats := { st.stats with
      total_sold := st.stats.total_sold + 1,
      total_amount := st.stats.total_amount + amount } }

/-- Which user-facing message branch `process_buy_request` took. -/
inductive BuyReply
  | productNotFound
  | insufficientBalance
  | success
deriving DecidableEq, Repr

/-- `process_buy_request` (lines 419-453): resolve the product, compute
`price = int(product["price"]) * qty`, refuse when `saldo < price`, otherwise
debit, bump `total_spent`, append one order record, write the user back and
call `add_stats_sold(price)`. -/
def process_buy_request (st : St) (phone code : String) (user : User) (qty : Nat) :
    St × BuyReply :=
  match st.products code with
  | none => (st, .productNotFound)
  | some product =>
      let price : Int := product.price * (qty : Int)
      let nama := product.name ++ (if qty > 1 then " x" ++ toString qty else "")
      if user.saldo < price then
        (st, .insufficientBalance)
      else
        let user1 : User := { user with
          saldo := user.saldo - price,
          total_spent := user.total_spent + price,
          orders := user.orders ++ [{ code := code, name := nama, price := price }] }
        (add_stats_sold (update_user st phone user1) price, .success)

/-- Which user-facing message branch `process_topup_request` took. -/
inductive TopupReply
  | belowMinimum
  | gatewayError
  | created
deriving DecidableEq, Repr

/-- Result of `process_topup_request`: new state, reply branch, and whether
the outbound gateway call was issued. -/
structure TopupResult where
  st : St
  reply : TopupReply
  gatewayCalled : Bool

/-- `process_topup_request` (lines 387-416): reject `amount < 5000`; otherwise
persist the PENDING record keyed by the fresh `merchant_ref` and only then
issue the gateway call (`create_tripay_qris`), whose success or raised failure
is the `gatewayOk` parameter. -/
def process_topup_request (st : St) (phone name : String) (amount : Int)
    (merchant_ref : String) (gatewayOk : Bool) : TopupResult :=
  if amount < 5000 then
    { st := st, reply := .belowMinimum, gatewayCalled := false }
  else
    let top : Topup := { phone := phone, name := name, amount := amount, status := "PENDING" }
    let st1 : St := { st with topups := setStore st.topups merchant_ref top }
    if gatewayOk then
      { st := st1, reply := .created, gatewayCalled := true }
    else
      { st := st1, reply := .gatewayError, gatewayCalled := true }

/-- The JSON body of a Tripay callback, with the three fields the handler
reads (lines 506-508); absence is `none`. -/
structure CallbackBody where
  status : Option String
  merchant_ref : Option String
  amount : Option Int
deriving DecidableEq, Repr

/-- Python truthiness test `not merchant_ref` on an optional string (line
517): true when the field is absent or the empty string. -/
def falsyRef : Option String → Bool
  | none => true
  | some s => s == ""

/-- Result of the callback endpoint: new state, the `success` field of the
JSON response, and whether the signature-mismatch warning was printed. -/
structure CallbackResult where
  st : St
  success : Bool
  warned : Bool

/-- `tripay_callback` (lines 493-546).  `sig` is the `X-Callback-Signature`
header (empty string when absent, as `headers.get(..., "")` yields) and
`expected` is the recomputed HMAC of the body; a mismatch only prints a
warning.  A falsy `merchant_ref` answers `success = false`; otherwise, a PAID
status on a stored non-PAID topup flips it to PAID, credits the owner's saldo
by the stored amount, and every such request answers `success = true`. -/
def tripay_callback (st : St) (body : CallbackBody) (sig expected : String) :
    CallbackResult :=
  let warned := sig ≠ "" && sig ≠ expected
  if falsyRef body.merchant_ref then
    { st := st, success := false, warned := warned }
  else
    let mref := body.merchant_ref.getD ""
    match st.topups mref with
    | some top =>
        if body.status = some "PAID" then
          if top.status = "PAID" then
            { st := st, success := true, warned := warned }
          else
            let st1 : St := { st with
              topups := setStore st.topups mref { top with status := "PAID" } }
            let r2 := get_or_create_user st1 top.phone top.name
            let st3 := update_user r2.1 top.phone
              { r2.2 with saldo := r2.2.saldo + top.amount }
            { st := st3, success := true, warned := warned }
        else
          { st := st, success := true, warned := warned }
    | none => { st := st, success := true, warned := warned }

/-- Python `s.isdigit()` on the ASCII strings the bot receives: nonempty and
all digit characters (line 285). -/
def isDigitStr (s : String) : Bool :=
  s ≠ "" && s.toList.all Char.isDigit

/-- Python `int(s)` on a digit string. -/
def strToNat (s : String) : Nat :=
  s.toList.foldl (fun acc c => acc * 10 + (c.toNat - 48)) 0

/-- The quantity parse shared by the `buynow` and `buyqr` command branches
(lines 285 and 295): `int(parts[2]) if len(parts) > 2 and parts[2].isdigit()
else 1`. -/
def parse_qty (parts : List String) : Nat :=
  if parts.length > 2 && isDigitStr (parts.getD 2 "") then
    strToNat (parts.getD 2 "")
  else 1

/-- The user's stored balance, zero when the user does not exist. -/
def saldoOf (st : St) (phone : String) : Int :=
  match st.users phone with
  | some u => u.saldo
  | none => 0

/-- The operations that reach the stores, as dispatched by `wa_webhook` /
`handle_command` (each command first runs `get_or_create_user`, line 245) and
by the callback endpoint. -/
inductive Op
  | contact (phone name : String)
  | buynow (phone name code : String) (qty : Nat)
  | topup (phone name : String) (amount : Int) (merchant_ref : String) (gatewayOk : Bool)
  | callback (body : CallbackBody) (sig expected : String)

/-- One inbound request applied to the state. -/
def step (st : St) : Op → St
  | .contact phone name => (get_or_create_user st phone name).1
  | .buynow phone name code qty =>
      let r := get_or_create_user st phone name
      (process_buy_request r.1 phone code r.2 qty).1
  | .topup phone name amount mref ok =>
      let r := get_or_create_user st phone name
      (process_topup_request r.1 phone name amount mref ok).st
  | .callback body sig expected => (tripay_callback st body sig expected).st

/-- The state right after `ensure_files()` (lines 96-106): empty stores and
zero stats, with an arbitrary external products catalog. -/
def init (products : Store Product) : St :=
  { users := fun _ => none, topups := fun _ => none, products := products,
    stats := { total_sold := 0, total_amount := 0, total_users := 0 } }

/-- Run a sequence of inbound requests from the initial state. -/
def run (products : Store Product) (ops : List Op) : St :=
  ops.foldl step (init products)

/-! ## Helper lemmas -/

theorem setStore_self {α : Type} (m : Store α) (k : String) (v : α) :
    setStore m k v k = some v := by
  simp [setStore]

theorem gocu_topups (st : St) (phone name : String) :
    (get_or_create_user st phone name).1.topups = st.topups := by
  unfold get_or_create_user
  cases h : st.users phone <;> simp

theorem gocu_products (st : St) (phone name : String) :
    (get_or_create_user st phone name).1.products = st.products := by
  unfold get_or_create_user
  cases h : st.users phone <;> simp

theorem gocu_sold_stats (st : St) (phone name : String) :
    (get_or_create_user st phone name).1.stats.total_sold = st.stats.total_sold ∧
    (get_or_create_user st phone name).1.stats.total_amount = st.stats.total_amount := by
  unfold get_or_create_user
  cases h : st.users phone <;> simp

theorem gocu_saldo (st : St) (phone name : String) :
    (get_or_create_user st phone name).2.saldo = saldoOf st phone := by
  unfold get_or_create_user saldoOf
  cases h : st.users phone <;> simp

theorem gocu_users_self (st : St) (phone name : String) :
    (get_or_create_user st phone name).1.users phone
      = some (get_or_create_user st phone name).2 := by
  unfold get_or_create_user
  cases h : st.users phone <;> simp [h, setStore_self]

theorem tripay_callback_paid_noop (st : St) (body : CallbackBody) (sig ex : String)
    (mref : String) (top : Topup)
    (hmref : body.merchant_ref = some mref) (hne : mref ≠ "")
    (hstatus : body.status = some "PAID")
    (htop : st.topups mref = some top) (hpaid : top.status = "PAID") :
    tripay_callback st body sig ex
      = { st := st, success := true, warned := sig ≠ "" && sig ≠ ex } := by
  have hf : falsyRef body.merchant_ref = false := by
    simp [hmref, falsyRef, hne]
  have hgetD : body.merchant_ref.getD "" = mref := by simp [hmref]
  simp [tripay_callback, hf, hgetD, htop, hstatus, hpaid]

theorem tripay_callback_settle (st : St) (body : CallbackBody) (sig ex : String)
    (mref : String) (top : Topup)
    (hmref : body.merchant_ref = some mref) (hne : mref ≠ "")
    (hstatus : body.status = some "PAID")
    (htop : st.topups mref = some top) (hpending : ¬ top.status = "PAID") :
    (tripay_callback st body sig ex).st.topups mref
      = some { top with status := "PAID" } ∧
    saldoOf (tripay_callback st body sig ex).st top.phone
      = saldoOf st top.phone + top.amount ∧
    (tripay_callback st body sig ex).success = true := by
  have hf : falsyRef body.merchant_ref = false := by
    simp [hmref, falsyRef, hne]
  have hgetD : body.merchant_ref.getD "" = mref := by simp [hmref]
  refine ⟨?_, ?_, ?_⟩
  · simp [tripay_callback, hf, hgetD, htop, hstatus, hpending, update_user,
      gocu_topups, setStore_self]
  · simp [tripay_callback, hf, hgetD, htop, hstatus, hpending, update_user,
      saldoOf, setStore_self, gocu_saldo]
  · simp [tripay_callback, hf, hgetD, htop, hstatus, hpending]

/-! ## Claim theorems -/

/-- C1: settlement is idempotent — a PAID callback for a `merchant_ref` whose
stored record is already PAID leaves the whole state unchanged; running the
same PAID callback twice gives the same state as running it once; and
starting from a not-yet-PAID record the two runs together credit the owning
user's saldo exactly once, by the stored amount. -/
theorem callback_settlement_idempotent (st : St) (body : CallbackBody) (sig ex : String)
    (mref : String) (top : Topup)
    (hmref : body.merchant_ref = some mref) (hne : mref ≠ "")
    (hstatus : body.status = some "PAID")
    (htop : st.topups mref = some top) :
    (top.status = "PAID" → (tripay_callback st body sig ex).st = st) ∧
    (tripay_callback (tripay_callback st body sig ex).st body sig ex).st
      = (tripay_callback st body sig ex).st ∧
    (¬ top.status = "PAID" →
      saldoOf (tripay_callback (tripay_callback st body sig ex).st body sig ex).st top.phone
        = saldoOf st top.phone + top.amount) := by
  by_cases hpaid : top.status = "PAID"
  · have hnoop := tripay_callback_paid_noop st body sig ex mref top hmref hne hstatus htop hpaid
    have h1 : (tripay_callback st body sig ex).st = st := by rw [hnoop]
    refine ⟨fun _ => h1, ?_, fun h => absurd hpaid h⟩
    rw [h1]
    exact h1
  · have hset := tripay_callback_settle st body sig ex mref top hmref hne hstatus htop hpaid
    have hnoop2 := tripay_callback_paid_noop (tripay_callback st body sig ex).st body sig ex
      mref { top with status := "PAID" } hmref hne hstatus hset.1 rfl
    have h2 : (tripay_callback (tripay_callback st body sig ex).st body sig ex).st
        = (tripay_callback st body sig ex).st := by rw [hnoop2]
    refine ⟨fun h => absurd h hpaid, h2, fun _ => ?_⟩
    rw [h2]
    exact hset.2.1

def topC1 : Topup := { phone := "628", name := "Ani", amount := 5000, status := "PENDING" }

def stC1 : St :=
  { users := fun _ => none,
    topups := setStore (fun _ => none) "T1" topC1,
    products := fun _ => none,
    stats := { total_sold := 0, total_amount := 0, total_users := 0 } }

def bodyC1 : CallbackBody :=
  { status := some "PAID", merchant_ref := some "T1", amount := some 5000 }

theorem callback_settlement_idempotent_witness :
    bodyC1.merchant_ref = some "T1" ∧ "T1" ≠ "" ∧ bodyC1.status = some "PAID" ∧
    stC1.topups "T1" = some topC1 ∧ ¬ topC1.status = "PAID" ∧
    saldoOf (tripay_callback (tripay_callback stC1 bodyC1 "" "").st bodyC1 "" "").st "628"
      = saldoOf stC1 "628" + 5000 := by
  have h := callback_settlement_idempotent stC1 bodyC1 "" "" "T1" topC1
    rfl (by decide) rfl rfl
  exact ⟨rfl, by decide, rfl, rfl, by decide, h.2.2 (by decide)⟩

/-- C3: settling a pending topup credits the owner's saldo by the amount
stored in the topup record; the callback's own `amount` field plays no part —
for every value of that field the outcome is identical. -/
theorem callback_credits_stored_amount (st : St) (body : CallbackBody) (sig ex : String)
    (mref : String) (top : Topup)
    (hmref : body.merchant_ref = some mref) (hne : mref ≠ "")
    (hstatus : body.status = some "PAID")
    (htop : st.topups mref = some top) (hpending : ¬ top.status = "PAID") :
    saldoOf (tripay_callback st body sig ex).st top.phone
      = saldoOf st top.phone + top.amount ∧
    (∀ a : Option Int,
      tripay_callback st
        { status := body.status, merchant_ref := body.merchant_ref, amount := a } sig ex
        = tripay_callback st body sig ex) :=
  ⟨(tripay_callback_settle st body sig ex mref top hmref hne hstatus htop hpending).2.1,
    fun _ => rfl⟩

theorem callback_credits_stored_amount_witness :
    stC1.topups "T1" = some topC1 ∧ ¬ topC1.status = "PAID" ∧
    saldoOf (tripay_callback stC1 bodyC1 "" "").st "628" = saldoOf stC1 "628" + 5000 ∧
    tripay_callback stC1
      { status := some "PAID", merchant_ref := some "T1", amount := some 999999 } "" ""
      = tripay_callback stC1 bodyC1 "" "" := by
  have h := callback_credits_stored_amount stC1 bodyC1 "" "" "T1" topC1
    rfl (by decide) rfl rfl (by decide)
  exact ⟨rfl, by decide, h.1, h.2 (some 999999)⟩

/-- C2: a balance-funded purchase of an existing product with unit price
`product.price` and quantity `qty` fails with no mutation when
`saldo < price × qty`; otherwise it answers success, stores the user with
saldo debited by `price × qty`, `total_spent` increased by `price × qty` and
exactly one appended order record, leaves topups alone, and bumps
`total_sold` by 1 and `total_amount` by `price × qty`. -/
theorem buy_request_correct (st : St) (phone code : String) (user : User)
    (qty : Nat) (product : Product) (hp : st.products code = some product) :
    (user.saldo < product.price * (qty : Int) →
      process_buy_request st phone code user qty = (st, BuyReply.insufficientBalance)) ∧
    (product.price * (qty : Int) ≤ user.saldo →
      (process_buy_request st phone code user qty).2 = BuyReply.success ∧
      (process_buy_request st phone code user qty).1.users phone = some { user with
          saldo := user.saldo - product.price * (qty : Int),
          total_spent := user.total_spent + product.price * (qty : Int),
          orders := user.orders ++
            [({ code := code,
                name := product.name ++ (if qty > 1 then " x" ++ toString qty else ""),
                price := product.price * (qty : Int) } : OrderRecord)] } ∧
      (process_buy_request st phone code user qty).1.topups = st.topups ∧
      (process_buy_request st phone code user qty).1.stats.total_sold
        = st.stats.total_sold + 1 ∧
      (process_buy_request st phone code user qty).1.stats.total_amount
        = st.stats.total_amount + product.price * (qty : Int)) := by
  constructor
  · intro h
    simp [process_buy_request, hp, h]
  · intro h
    have h2 : ¬ user.saldo < product.price * (qty : Int) := not_lt.mpr h
    simp [process_buy_request, hp, h2, update_user, add_stats_sold, setStore_self]

def stC2 : St :=
  { users := fun _ => none, topups := fun _ => none,
    products := setStore (fun _ => none) "BOX" { name := "Box", price := 15000 },
    stats := { total_sold := 0, total_amount := 0, total_users := 0 } }

def userC2 : User := { name := "Ani", saldo := 20000, total_spent := 0, orders := [] }

theorem buy_request_correct_witness :
    stC2.products "BOX" = some { name := "Box", price := 15000 } ∧
    (15000 : Int) * ((1 : Nat) : Int) ≤ userC2.saldo ∧
    (process_buy_request stC2 "628" "BOX" userC2 1).2 = BuyReply.success ∧
    (process_buy_request stC2 "628" "BOX" userC2 1).1.stats.total_sold
      = stC2.stats.total_sold + 1 :=
  ⟨by decide, by decide,
    ((buy_request_correct stC2 "628" "BOX" userC2 1
        { name := "Box", price := 15000 } (by decide)).2 (by decide)).1,
    ((buy_request_correct stC2 "628" "BOX" userC2 1
        { name := "Box", price := 15000 } (by decide)).2 (by decide)).2.2.2.1⟩

/-- C6: a topup request below the 5000 minimum is rejected with the
corrective reply, the state (in particular the topups store) is unchanged,
and the gateway is never called. -/
theorem topup_below_minimum (st : St) (phone name : String) (amount : Int)
    (merchant_ref : String) (gatewayOk : Bool) (h : amount < 5000) :
    process_topup_request st phone name amount merchant_ref gatewayOk
      = { st := st, reply := TopupReply.belowMinimum, gatewayCalled := false } := by
  simp [process_topup_request, h]

theorem topup_below_minimum_witness :
    (1000 : Int) < 5000 ∧
    process_topup_request (init (fun _ => none)) "628" "Ani" 1000 "T1" true
      = { st := init (fun _ => none), reply := TopupReply.belowMinimum,
          gatewayCalled := false } :=
  ⟨by decide, topup_below_minimum (init (fun _ => none)) "628" "Ani" 1000 "T1" true (by decide)⟩

/-- C7: a topup of at least 5000 persists the PENDING record under the fresh
`merchant_ref` and then issues the gateway call; because the record is saved
before the call, the resulting state is the same whether the gateway call
succeeds or raises, so a failed call still leaves the Pending record
tracked. -/
theorem topup_persists_before_gateway (st : St) (phone name : String) (amount : Int)
    (merchant_ref : String) (gatewayOk : Bool) (h : ¬ amount < 5000) :
    (process_topup_request st phone name amount merchant_ref gatewayOk).st.topups merchant_ref
      = some { phone := phone, name := name, amount := amount, status := "PENDING" } ∧
    (process_topup_request st phone name amount merchant_ref gatewayOk).gatewayCalled = true ∧
    (process_topup_request st phone name amount merchant_ref false).st
      = (process_topup_request st phone name amount merchant_ref true).st := by
  refine ⟨?_, ?_, ?_⟩ <;> cases gatewayOk <;>
    simp [process_topup_request, h, setStore_self]

theorem topup_persists_before_gateway_witness :
    ¬ (20000 : Int) < 5000 ∧
    (process_topup_request (init (fun _ => none)) "628" "Ani" 20000 "T1" false).st.topups "T1"
      = some { phone := "628", name := "Ani", amount := 20000, status := "PENDING" } :=
  ⟨by decide,
    (topup_persists_before_gateway (init (fun _ => none)) "628" "Ani" 20000 "T1" false
      (by decide)).1⟩

/-- C9: callback processing is independent of signature verification — the
resulting state and the response are the same for any value of the
`X-Callback-Signature` header and any recomputed HMAC; a nonempty mismatching
header only sets the logged-warning flag. -/
theorem callback_signature_independent (st : St) (body : CallbackBody)
    (sig1 ex1 sig2 ex2 : String) :
    (tripay_callback st body sig1 ex1).st = (tripay_callback st body sig2 ex2).st ∧
    (tripay_callback st body sig1 ex1).success = (tripay_callback st body sig2 ex2).success ∧
    (tripay_callback st body sig1 ex1).warned = (sig1 ≠ "" && sig1 ≠ ex1) := by
  unfold tripay_callback
  by_cases hf : falsyRef body.merchant_ref
  · simp [hf]
  · simp only [Bool.not_eq_true] at hf
    simp only [hf, Bool.false_eq_true, if_false]
    cases ht : st.topups (body.merchant_ref.getD "") with
    | none => simp [ht]
    | some top =>
        by_cases hs : body.status = some "PAID"
        · by_cases hpd : top.status = "PAID" <;> simp [ht, hs, hpd]
        · simp [ht, hs]

/-- C10: a non-digit third token in `buynow`/`buyqr` parses as quantity 1 and
the token `0` parses as quantity 0; with quantity 0 a balance-funded purchase
of any existing product succeeds for any user with nonnegative saldo, stores
the user with saldo and `total_spent` unchanged yet one appended zero-price
order record, and still bumps `total_sold` by 1. -/
theorem qty_parse_and_zero_buy (st : St) (phone code : String) (user : User)
    (product : Product) (c1 c2 tok : String) (rest : List String)
    (hp : st.products code = some product)
    (htok : isDigitStr tok = false)
    (hs : 0 ≤ user.saldo) :
    parse_qty (c1 :: c2 :: tok :: rest) = 1 ∧
    parse_qty [c1, c2, "0"] = 0 ∧
    (process_buy_request st phone code user 0).2 = BuyReply.success ∧
    (process_buy_request st phone code user 0).1.users phone
      = some { user with
          orders := user.orders ++
            [({ code := code, name := product.name, price := 0 } : OrderRecord)] } ∧
    (process_buy_request st phone code user 0).1.stats.total_sold
      = st.stats.total_sold + 1 := by
  have h0 : ¬ user.saldo < 0 := not_lt.mpr hs
  refine ⟨?_, ?_, ?_, ?_, ?_⟩
  · simp [parse_qty, htok]
  · simp [parse_qty, isDigitStr, strToNat]
  · simp [process_buy_request, hp, h0]
  · simp [process_buy_request, hp, h0, update_user, add_stats_sold, setStore_self]
  · simp [process_buy_request, hp, h0, update_user, add_stats_sold]

def stC10 : St :=
  { users := fun _ => none, topups := fun _ => none,
    products := setStore (fun _ => none) "BOX" { name := "Box", price := 15000 },
    stats := { total_sold := 3, total_amount := 45000, total_users := 1 } }

def userC10 : User := { name := "Budi", saldo := 0, total_spent := 0, orders := [] }

theorem qty_parse_and_zero_buy_witness :
    stC10.products "BOX" = some { name := "Box", price := 15000 } ∧
    isDigitStr "dua" = false ∧ (0 : Int) ≤ userC10.saldo ∧
    parse_qty ["buynow", "box", "dua"] = 1 ∧
    parse_qty ["buynow", "box", "0"] = 0 ∧
    (process_buy_request stC10 "628" "BOX" userC10 0).2 = BuyReply.success ∧
    (process_buy_request stC10 "628" "BOX" userC10 0).1.stats.total_sold
      = stC10.stats.total_sold + 1 := by
  have h := qty_parse_and_zero_buy stC10 "628" "BOX" userC10
    { name := "Box", price := 15000 } "buynow" "box" "dua" []
    (by decide) (by decide) (by decide)
  exact ⟨by decide, by decide, by decide, h.1, h.2.1, h.2.2.1, h.2.2.2.2⟩

theorem tripay_callback_falsy (st : St) (body : CallbackBody) (sig ex : String)
    (hf : falsyRef body.merchant_ref = true) :
    tripay_callback st body sig ex
      = { st := st, success := false, warned := sig ≠ "" && sig ≠ ex } := by
  simp [tripay_callback, hf]

theorem tripay_callback_success_true (st : St) (body : CallbackBody) (sig ex : String)
    (hf : falsyRef body.merchant_ref = false) :
    (tripay_callback st body sig ex).success = true := by
  unfold tripay_callback
  simp only [hf, Bool.false_eq_true, if_false]
  cases ht : st.topups (body.merchant_ref.getD "") with
  | none => simp [ht]
  | some top =>
      by_cases hs : body.status = some "PAID"
      · by_cases hpd : top.status = "PAID" <;> simp [ht, hs, hpd]
      · simp [ht, hs]

/-- C5 corrected: the callback endpoint never touches `total_sold` or
`total_amount` — for every state, payload and signature, both aggregates are
unchanged (settlement only credits saldo, and at most bumps `total_users`
through `get_or_create_user`); only balance-funded purchases mutate them. -/
theorem callback_never_updates_sold_stats (st : St) (body : CallbackBody) (sig ex : String) :
    (tripay_callback st body sig ex).st.stats.total_sold = st.stats.total_sold ∧
    (tripay_callback st body sig ex).st.stats.total_amount = st.stats.total_amount := by
  unfold tripay_callback
  by_cases hf : falsyRef body.merchant_ref
  · simp [hf]
  · simp only [Bool.not_eq_true] at hf
    simp only [hf, Bool.false_eq_true, if_false]
    cases ht : st.topups (body.merchant_ref.getD "") with
    | none => simp [ht]
    | some top =>
        by_cases hs : body.status = some "PAID"
        · by_cases hpd : top.status = "PAID"
          · simp [ht, hs, hpd]
          · simp [ht, hs, hpd, update_user, gocu_sold_stats]
        · simp [ht, hs]

def stC5 : St :=
  { users := fun _ => none,
    topups := setStore (fun _ => none) "TOPUP-628-ab12cd34"
      { phone := "628", name := "Ani", amount := 15000, status := "PENDING" },
    products := fun _ => none,
    stats := { total_sold := 0, total_amount := 0, total_users := 0 } }

def bodyC5 : CallbackBody :=
  { status := some "PAID", merchant_ref := some "TOPUP-628-ab12cd34", amount := some 15000 }

theorem callback_no_sold_stats_counterexample :
    ((tripay_callback stC5 bodyC5 "" "").st.topups "TOPUP-628-ab12cd34").map Topup.status
      = some "PAID" ∧
    saldoOf (tripay_callback stC5 bodyC5 "" "").st "628" = 15000 ∧
    (tripay_callback stC5 bodyC5 "" "").st.stats.total_sold = 0 ∧
    (tripay_callback stC5 bodyC5 "" "").st.stats.total_amount = 0 ∧
    stC5.stats.total_sold = 0 ∧ stC5.stats.total_amount = 0 := by decide

/-- C8 corrected: the callback answers `success = false` exactly when the
payload's `merchant_ref` is Python-falsy — absent or the empty string — and
then mutates nothing; when `merchant_ref` is present and nonempty the answer
is `success = true` regardless of business outcome, and in the
unknown-reference and non-PAID cases the state is unchanged. -/
theorem callback_response_contract (st : St) (body : CallbackBody) (sig ex : String) :
    ((tripay_callback st body sig ex).success = false ↔ falsyRef body.merchant_ref = true) ∧
    (falsyRef body.merchant_ref = true → (tripay_callback st body sig ex).st = st) ∧
    (∀ m, body.merchant_ref = some m → m ≠ "" →
      (st.topups m = none → tripay_callback st body sig ex
          = { st := st, success := true, warned := sig ≠ "" && sig ≠ ex }) ∧
      (¬ body.status = some "PAID" → tripay_callback st body sig ex
          = { st := st, success := true, warned := sig ≠ "" && sig ≠ ex })) := by
  by_cases hf : falsyRef body.merchant_ref = true
  · have hn := tripay_callback_falsy st body sig ex hf
    refine ⟨by rw [hn]; simp [hf], fun _ => by rw [hn], fun m hm hne => ?_⟩
    rw [hm] at hf
    simp [falsyRef, hne] at hf
  · have hf2 : falsyRef body.merchant_ref = false := by
      simpa using hf
    have hsucc := tripay_callback_success_true st body sig ex hf2
    refine ⟨by rw [hsucc]; simp [hf2], fun h => absurd h hf, fun m hm hne => ?_⟩
    have hgetD : body.merchant_ref.getD "" = m := by simp [hm]
    constructor
    · intro hnone
      simp [tripay_callback, hf2, hgetD, hnone]
    · intro hnp
      unfold tripay_callback
      simp only [hf2, Bool.false_eq_true, if_false, hgetD]
      cases ht : st.topups m with
      | none => simp [ht]
      | some top => simp [ht, hnp]

def bodyC8 : CallbackBody := { status := some "PAID", merchant_ref := some "", amount := none }

theorem callback_empty_ref_counterexample :
    bodyC8.merchant_ref ≠ none ∧
    (tripay_callback (init (fun _ => none)) bodyC8 "" "").success = false := by decide

def bodyC8w : CallbackBody :=
  { status := some "EXPIRED", merchant_ref := some "X", amount := none }

theorem callback_response_contract_witness :
    bodyC8w.merchant_ref = some "X" ∧ "X" ≠ "" ∧
    (init (fun _ => none)).topups "X" = none ∧
    (tripay_callback (init (fun _ => none)) bodyC8w "" "").st = init (fun _ => none) ∧
    (tripay_callback (init (fun _ => none)) bodyC8w "" "").success = true := by
  have h := callback_response_contract (init (fun _ => none)) bodyC8w "" ""
  have h3 := (h.2.2 "X" rfl (by decide)).1 rfl
  exact ⟨rfl, by decide, rfl, by rw [h3], by rw [h3]⟩

/-! ## The nonnegativity invariant (C4) -/

/-- The ledger invariant: every stored user has a nonnegative saldo, and every
stored topup record carries a nonnegative amount. -/
def SaldoInv (st : St) : Prop :=
  (∀ p u, st.users p = some u → 0 ≤ u.saldo) ∧
  (∀ m t, st.topups m = some t → 0 ≤ t.amount)

theorem saldoInv_init (products : Store Product) : SaldoInv (init products) := by
  constructor <;> intro a b h <;> simp [init] at h

theorem gocu_inv (st : St) (phone name : String) (h : SaldoInv st) :
    SaldoInv (get_or_create_user st phone name).1 ∧
    0 ≤ (get_or_create_user st phone name).2.saldo := by
  cases hu : st.users phone with
  | some u =>
      simp only [get_or_create_user, hu]
      exact ⟨h, h.1 phone u hu⟩
  | none =>
      simp only [get_or_create_user, hu]
      refine ⟨⟨?_, h.2⟩, by simp⟩
      intro p v hv
      simp only [setStore] at hv
      split at hv
      · injection hv with hv2
        subst hv2
        simp
      · exact h.1 p v hv

theorem buy_inv (st : St) (phone code : String) (user : User) (qty : Nat)
    (h : SaldoInv st) :
    SaldoInv (process_buy_request st phone code user qty).1 := by
  unfold process_buy_request
  cases hp : st.products code with
  | none => simpa using h
  | some product =>
      simp only [hp]
      by_cases hlt : user.saldo < product.price * (qty : Int)
      · simpa [hlt] using h
      · simp only [hlt, if_false]
        constructor
        · intro p v hv
          simp only [add_stats_sold, update_user, setStore] at hv
          split at hv
          · injection hv with hv2
            subst hv2
            simp only []
            have := not_lt.mp hlt
            simp
            linarith
          · exact h.1 p v hv
        · intro m t ht
          exact h.2 m t ht

theorem topup_state (st : St) (phone name : String) (amount : Int)
    (merchant_ref : String) (gatewayOk : Bool) (ha : ¬ amount < 5000) :
    (process_topup_request st phone name amount merchant_ref gatewayOk).st
      = { st with topups := setStore st.topups merchant_ref { phone := phone, name := name, amount := amount, status := "PENDING" } } := by
  cases gatewayOk <;> simp [process_topup_request, ha]

theorem topup_inv (st : St) (phone name : String) (amount : Int)
    (merchant_ref : String) (gatewayOk : Bool) (h : SaldoInv st) :
    SaldoInv (process_topup_request st phone name amount merchant_ref gatewayOk).st := by
  by_cases ha : amount < 5000
  · simpa [process_topup_request, ha] using h
  · have h0 : (0 : Int) ≤ amount := le_trans (by norm_num) (not_lt.mp ha)
    rw [topup_state st phone name amount merchant_ref gatewayOk ha]
    refine ⟨h.1, ?_⟩
    intro m t ht
    simp only [setStore] at ht
    split at ht
    · injection ht with ht2
      subst ht2
      exact h0
    · exact h.2 m t ht

theorem callback_inv (st : St) (body : CallbackBody) (sig ex : String)
    (h : SaldoInv st) : SaldoInv (tripay_callback st body sig ex).st := by
  unfold tripay_callback
  by_cases hf : falsyRef body.merchant_ref
  · simpa [hf] using h
  · simp only [Bool.not_eq_true] at hf
    simp only [hf, Bool.false_eq_true, if_false]
    cases ht : st.topups (body.merchant_ref.getD "") with
    | none => simpa [ht] using h
    | some top =>
        by_cases hs : body.status = some "PAID"
        · by_cases hpd : top.status = "PAID"
          · simpa [ht, hs, hpd] using h
          · simp only [ht, hs, hpd, if_true, if_false]
            have hamt : 0 ≤ top.amount := h.2 _ top ht
            have hst1 : SaldoInv { st with topups := setStore st.topups (body.merchant_ref.getD "") { top with status := "PAID" } } := by
              refine ⟨h.1, ?_⟩
              intro m t htm
              simp only [setStore] at htm
              split at htm
              · injection htm with htm2
                subst htm2
                exact hamt
              · exact h.2 m t htm
            have hg := gocu_inv _ top.phone top.name hst1
            refine ⟨?_, hg.1.2⟩
            intro p v hv
            simp only [update_user, setStore] at hv
            split at hv
            · injection hv with hv2
              subst hv2
              exact add_nonneg hg.2 hamt
            · exact hg.1.1 p v hv
        · simpa [ht, hs] using h

theorem step_inv (st : St) (op : Op) (h : SaldoInv st) : SaldoInv (step st op) := by
  cases op with
  | contact phone name => exact (gocu_inv st phone name h).1
  | buynow phone name code qty =>
      exact buy_inv _ phone code _ qty (gocu_inv st phone name h).1
  | topup phone name amount mref ok =>
      exact topup_inv _ phone name amount mref ok (gocu_inv st phone name h).1
  | callback body sig ex => exact callback_inv st body sig ex h

theorem foldl_inv (l : List Op) (st : St) (h : SaldoInv st) :
    SaldoInv (l.foldl step st) := by
  induction l generalizing st with
  | nil => exact h
  | cons a l ih => exact ih _ (step_inv st a h)

theorem run_inv (products : Store Product) (ops : List Op) :
    SaldoInv (run products ops) :=
  foldl_inv ops (init products) (saldoInv_init products)

/-- C4: balances never go negative — after any reachable sequence of inbound
requests (first contacts, balance purchases, topups, callbacks) from the
initial empty state, every stored user has `saldo ≥ 0`. -/
theorem saldo_never_negative (products : Store Product) (ops : List Op)
    (p : String) (u : User)
    (h : (run products ops).users p = some u) : 0 ≤ u.saldo :=
  (run_inv products ops).1 p u h

def bodyC4 : CallbackBody :=
  { status := some "PAID", merchant_ref := some "TOPUP-628-x1", amount := some 999 }

def opsC4 : List Op :=
  [Op.contact "628" "Ani",
   Op.topup "628" "Ani" 20000 "TOPUP-628-x1" true,
   Op.callback bodyC4 "" ""]

def userC4 : User := { name := "Ani", saldo := 20000, total_spent := 0, orders := [] }

theorem saldo_never_negative_witness :
    (run (fun _ => none) opsC4).users "628" = some userC4 ∧ (0 : Int) ≤ userC4.saldo :=
  ⟨by decide, saldo_never_negative (fun _ => none) opsC4 "628" userC4 (by decide)⟩

end VanzSC
